import Mathlib

/-!
Shallow embedding of the `pone-software/geometry` repository.

The repository holds two Python files built on numpy:
* `src/geometry.py` with `apply_rotation`, `apply_displacement`,
  `apply_transformations` and `create_symmetry`;
* `src/transformations.py` with the first three of those functions.

Arrays are modelled by `NPArr`: a one-dimensional real array or a
two-dimensional one.  A two-dimensional array carries its column count
explicitly so that shapes such as (0, 2) survive the embedding; the
well-formedness predicate `NPArr.WF` states that every row has the
recorded length.  Raised `ValueError`s are modelled by `Except String`.
-/

open Real

noncomputable section

/-- Model of a numpy array of reals, one- or two-dimensional. -/
inductive NPArr : Type where
  | one (v : List ℝ) : NPArr
  | two (ncols : Nat) (rows : List (List ℝ)) : NPArr

/-- A two-dimensional array is well formed when every row has the
recorded number of columns; numpy only builds such arrays. -/
def NPArr.WF : NPArr → Prop
  | .one _ => True
  | .two c rows => ∀ r ∈ rows, r.length = c

/-- Shape of an array, as `np.shape` returns it. -/
def NPArr.shape : NPArr → List Nat
  | .one v => [v.length]
  | .two c rows => [rows.length, c]

/-- Python `shape[-1]`: the last entry of the shape tuple. -/
def shapeLast (s : List Nat) : Nat := s.getLastD 0

/-- Python `str` of a shape tuple, as interpolated into error messages:
`(2,)` for one dimension, `(n, m)` for two. -/
def shapeStr : List Nat → String
  | [n] => "(" ++ toString n ++ ",)"
  | [n, m] => "(" ++ toString n ++ ", " ++ toString m ++ ")"
  | _ => "()"

/-- Degrees to radians, as `np.deg2rad`. -/
def deg2rad (x : ℝ) : ℝ := x * Real.pi / 180

/-- Model of `np.arange` on an integer argument; empty for a non-positive one. -/
def arange (n : ℤ) : List ℝ := (List.range n.toNat).map Nat.cast

/-- Transpose `.T` of numpy: the transpose of a two-dimensional array,
identity on a one-dimensional one. -/
def npT : NPArr → NPArr
  | .one v => .one v
  | .two c rows => .two rows.length ((List.range c).map (fun j => rows.map (fun r => r.getD j 0)))

/-- Matrix product `M.dot(B)` for a 2×2 matrix `M` (given as a pair of pairs) and an
array `B` whose leading dimension is 2, the only case the sources reach:
for a vector it is the matrix-vector product, for a 2×k array the
matrix-matrix product. -/
def dot2 (M : (ℝ × ℝ) × (ℝ × ℝ)) : NPArr → NPArr
  | .one v =>
      .one [M.1.1 * v.getD 0 0 + M.1.2 * v.getD 1 0,
            M.2.1 * v.getD 0 0 + M.2.2 * v.getD 1 0]
  | .two c rows =>
      .two c [List.zipWith (fun x y => M.1.1 * x + M.1.2 * y)
                (rows.getD 0 (List.replicate c 0)) (rows.getD 1 (List.replicate c 0)),
              List.zipWith (fun x y => M.2.1 * x + M.2.2 * y)
                (rows.getD 0 (List.replicate c 0)) (rows.getD 1 (List.replicate c 0))]

/-- Broadcast addition `np.array([dx, dy]) + strings` of a shape
(2,) vector with an array: elementwise on a length-2 vector, rowwise on
an (N, 2) array, broadcasting a trailing dimension of 1, and a
`ValueError` otherwise. -/
def addVec2 (dx dy : ℝ) : NPArr → Except String NPArr
  | .one v =>
      if v.length = 2 then .ok (.one [dx + v.getD 0 0, dy + v.getD 1 0])
      else if v.length = 1 then .ok (.one [dx + v.getD 0 0, dy + v.getD 0 0])
      else .error ("operands could not be broadcast together with shapes (2,) " ++
        shapeStr [v.length] ++ " ")
  | .two c rows =>
      if c = 2 then .ok (.two 2 (rows.map (fun r => [dx + r.getD 0 0, dy + r.getD 1 0])))
      else if c = 1 then .ok (.two 2 (rows.map (fun r => [dx + r.getD 0 0, dy + r.getD 0 0])))
      else .error ("operands could not be broadcast together with shapes (2,) " ++
        shapeStr [rows.length, c] ++ " ")

namespace geometry

/-- Embedding of `src/geometry.py::apply_rotation`: guard `np.shape(strings)[-1] != 2`,
then `rotation_matrix.dot(strings.T).T` with the standard rotation
matrix. -/
def apply_rotation (strings : NPArr) (rotation_angle : ℝ) : Except String NPArr :=
  if shapeLast strings.shape ≠ 2 then
    .error ("strings needs to have shape (N, 2) but has shape " ++ shapeStr strings.shape ++ ".")
  else
    let rotation_matrix := ((Real.cos rotation_angle, -Real.sin rotation_angle),
                            (Real.sin rotation_angle, Real.cos rotation_angle))
    .ok (npT (dot2 rotation_matrix (npT strings)))

/-- Embedding of `src/geometry.py::apply_displacement`: guard
`np.shape(displacement) != (2,)` (realized by the pattern: only a
length-2 one-dimensional array has shape (2,)), then
`displacement + strings`. -/
def apply_displacement (strings displacement : NPArr) : Except String NPArr :=
  match displacement with
  | .one [dx, dy] => addVec2 dx dy strings
  | d =>
    .error ("displacement needs to have shape (2,) but has shape " ++ shapeStr d.shape ++ ".")

/-- Embedding of `src/geometry.py::apply_transformations`: re-validate the shape of
`strings`, then rotate and displace; a raised error propagates. -/
def apply_transformations (strings displacement : NPArr) (rotation_angle : ℝ) :
    Except String NPArr :=
  if shapeLast strings.shape ≠ 2 then
    .error ("strings needs to have shape (N, 2) but has shape " ++ shapeStr strings.shape ++ ".")
  else
    Except.bind (apply_rotation strings rotation_angle)
      (fun moved_strings => apply_displacement moved_strings displacement)

/-- Embedding of `src/geometry.py::create_symmetry`: guard `N_partial >= N_symmetry`,
then `sym_angle = np.deg2rad(360 / N_symmetry)`,
`stepper = np.arange(N_symmetry) if N_partial == 0 else np.arange(N_partial)`,
`all_angles = starting_angle + sym_angle * stepper` and
`np.array([np.cos(all_angles), np.sin(all_angles)]).T`. -/
def create_symmetry (N_symmetry : ℤ) (starting_angle : ℝ) ( N_partial : ℤ) :
    Except String NPArr :=
  if N_partial ≥ N_symmetry then
    .error ("N_partial (" ++ toString N_partial ++ ") is larger than N_symmetry (" ++
      toString N_symmetry ++ "). ")
  else
    let sym_angle := deg2rad (360 / (N_symmetry : ℝ))
    let stepper := if N_partial = 0 then arange N_symmetry else arange N_partial
    let all_angles := stepper.map (fun t => starting_angle + sym_angle * t)
    .ok (npT (NPArr.two all_angles.length [all_angles.map Real.cos, all_angles.map Real.sin]))

/-- The function names defined by `src/geometry.py`, in source order. -/
def definedFunctions : List String :=
  ["apply_rotation", "apply_displacement", "apply_transformations", "create_symmetry"]

end geometry

namespace transformations

/-- Embedding of `src/transformations.py::apply_rotation`, textually identical to the
copy in `src/geometry.py`. -/
def apply_rotation (strings : NPArr) (rotation_angle : ℝ) : Except String NPArr :=
  if shapeLast strings.shape ≠ 2 then
    .error ("strings needs to have shape (N, 2) but has shape " ++ shapeStr strings.shape ++ ".")
  else
    let rotation_matrix := ((Real.cos rotation_angle, -Real.sin rotation_angle),
                            (Real.sin rotation_angle, Real.cos rotation_angle))
    .ok (npT (dot2 rotation_matrix (npT strings)))

/-- Embedding of `src/transformations.py::apply_displacement`, textually identical to
the copy in `src/geometry.py`. -/
def apply_displacement (strings displacement : NPArr) : Except String NPArr :=
  match displacement with
  | .one [dx, dy] => addVec2 dx dy strings
  | d =>
    .error ("displacement needs to have shape (2,) but has shape " ++ shapeStr d.shape ++ ".")

/-- Embedding of `src/transformations.py::apply_transformations`, textually identical
to the copy in `src/geometry.py`. -/
def apply_transformations (strings displacement : NPArr) (rotation_angle : ℝ) :
    Except String NPArr :=
  if shapeLast strings.shape ≠ 2 then
    .error ("strings needs to have shape (N, 2) but has shape " ++ shapeStr strings.shape ++ ".")
  else
    Except.bind (apply_rotation strings rotation_angle)
      (fun moved_strings => apply_displacement moved_strings displacement)

/-- The function names defined by `src/transformations.py`, in source
order; the file ends after `apply_transformations`. -/
def definedFunctions : List String :=
  ["apply_rotation", "apply_displacement", "apply_transformations"]

end transformations

/-- The rows of a successful two-dimensional result, `[]` otherwise. -/
def resultRows : Except String NPArr → List (List ℝ)
  | .ok (.two _ rows) => rows
  | _ => []

end

/-- Indexing helper: mapping a two-entry bracket over the indices of a
list is the same as mapping the entries directly. -/
theorem range_map_pair {α : Type} (L : List α) (g0 g1 : α → ℝ) :
    (List.range L.length).map (fun j => [(L.map g0).getD j 0, (L.map g1).getD j 0]) =
      L.map (fun x => [g0 x, g1 x]) := by
  apply List.ext_getElem (by simp)
  intro i h1 h2
  have hi : i < L.length := by simpa using h2
  simp only [List.getElem_map, List.getElem_range]
  rw [List.getD_eq_getElem _ _ (by simpa using hi), List.getD_eq_getElem _ _ (by simpa using hi)]
  simp

/-- Computation of `apply_rotation` on a two-dimensional array with two
columns: every row is rotated in place. -/
theorem apply_rotation_two (rows : List (List ℝ)) (a : ℝ) :
    geometry.apply_rotation (.two 2 rows) a =
      .ok (.two 2 (rows.map (fun r =>
        [r.getD 0 0 * Real.cos a - r.getD 1 0 * Real.sin a,
         r.getD 0 0 * Real.sin a + r.getD 1 0 * Real.cos a]))) := by
  unfold geometry.apply_rotation
  rw [if_neg (fun h => h rfl)]
  have hr2 : List.range 2 = [0, 1] := rfl
  simp only [npT, dot2, hr2, List.map_cons, List.map_nil, List.getD_cons_zero,
    List.getD_cons_succ, List.zipWith_map_left, List.zipWith_map_right, List.zipWith_same,
    List.length_cons, List.length_nil, List.length_map]
  rw [range_map_pair rows]
  norm_num
  intro r _
  constructor <;> ring

/-- Computation of the transpose step of `create_symmetry`: stacking a
cosine row and a sine row and transposing yields the list of pairs. -/
theorem npT_cos_sin (L : List ℝ) :
    npT (NPArr.two L.length [L.map Real.cos, L.map Real.sin]) =
      NPArr.two 2 (L.map (fun x => [Real.cos x, Real.sin x])) := by
  simp only [npT, List.length_cons, List.length_nil, List.map_cons, List.map_nil,
    List.getD_cons_zero, List.getD_cons_succ]
  rw [range_map_pair L Real.cos Real.sin]

/-- Conversion of the degree step to radians: `deg2rad (360 / x)` is
`2 * pi / x`, for `x = 0` included (both sides vanish). -/
theorem deg2rad_360_div (x : ℝ) : deg2rad (360 / x) = 2 * Real.pi / x := by
  unfold deg2rad
  rcases eq_or_ne x 0 with h0 | h0
  · simp [h0]
  · field_simp
    ring

/-- Computation of the angle list of `create_symmetry`: stepping through
`arange t` with the symmetry angle of `N` gives the angles
`s + k * (2 * pi / N)`. -/
theorem map_arange_pair (N t : ℤ) (s : ℝ) :
    ((arange t).map (fun x => s + deg2rad (360 / (N:ℝ)) * x)).map
        (fun x => [Real.cos x, Real.sin x]) =
      (List.range t.toNat).map (fun k : ℕ =>
        [Real.cos (s + (k:ℝ) * (2 * Real.pi / N)),
         Real.sin (s + (k:ℝ) * (2 * Real.pi / N))]) := by
  simp only [arange, List.map_map]
  apply List.map_congr_left
  intro k _
  simp only [Function.comp, deg2rad_360_div]
  rw [mul_comm (2 * Real.pi / (N:ℝ)) (k:ℝ)]

/-- Computation of `create_symmetry` with `N_partial = 0`: all
`N_symmetry` vertices are produced. -/
theorem create_symmetry_full (N : ℤ) (s : ℝ) (hg : ¬ (0:ℤ) ≥ N) :
    geometry.create_symmetry N s 0 =
      .ok (.two 2 ((List.range N.toNat).map (fun k : ℕ =>
        [Real.cos (s + (k:ℝ) * (2 * Real.pi / N)),
         Real.sin (s + (k:ℝ) * (2 * Real.pi / N))]))) := by
  unfold geometry.create_symmetry
  rw [if_neg hg]
  simp only [npT_cos_sin]
  show Except.ok (NPArr.two 2 (((arange N).map (fun t => s + deg2rad (360 / (N:ℝ)) * t)).map
    (fun x => [Real.cos x, Real.sin x]))) = _
  rw [map_arange_pair]

/-- Computation of `create_symmetry` with a nonzero `N_partial` below the
guard: only `N_partial` vertices are produced. -/
theorem create_symmetry_part (N q : ℤ) (s : ℝ) (hg : ¬ q ≥ N) (hq : q ≠ 0) :
    geometry.create_symmetry N s q =
      .ok (.two 2 ((List.range q.toNat).map (fun k : ℕ =>
        [Real.cos (s + (k:ℝ) * (2 * Real.pi / N)),
         Real.sin (s + (k:ℝ) * (2 * Real.pi / N))]))) := by
  unfold geometry.create_symmetry
  rw [if_neg hg]
  simp only [npT_cos_sin]
  rw [if_neg hq]
  rw [map_arange_pair]

/-- Claim C1: for every input array of shape (N, 2) and every angle `a`,
`apply_rotation` returns the array whose i-th row is the standard
counter-clockwise rotation of the i-th input point about the origin,
row i being (x * cos a - y * sin a, x * sin a + y * cos a). -/
theorem C1_apply_rotation_rowwise (rows : List (List ℝ))
    (_hrows : ∀ r ∈ rows, r.length = 2) (a : ℝ) :
    geometry.apply_rotation (.two 2 rows) a =
      .ok (.two 2 (rows.map (fun r =>
        [r.getD 0 0 * Real.cos a - r.getD 1 0 * Real.sin a,
         r.getD 0 0 * Real.sin a + r.getD 1 0 * Real.cos a]))) :=
  apply_rotation_two rows a

/-- Witness for C1 at the concrete scenario of the claim:
rotating [[1, 0]] by pi/2 gives [[0, 1]] exactly. -/
theorem C1_apply_rotation_rowwise_witness :
    (∀ r ∈ [[(1:ℝ), 0]], r.length = 2) ∧
    geometry.apply_rotation (.two 2 [[(1:ℝ), 0]]) (Real.pi / 2) = .ok (.two 2 [[0, 1]]) := by
  have h : ∀ r ∈ [[(1:ℝ), 0]], r.length = 2 := by
    intro r hr
    simp only [List.mem_singleton] at hr
    subst hr
    rfl
  refine ⟨h, ?_⟩
  rw [C1_apply_rotation_rowwise [[(1:ℝ), 0]] h (Real.pi / 2)]
  norm_num [List.getD]

/-- Claim C2: `apply_transformations P d a` is exactly
`apply_displacement (apply_rotation P a) d`, the same value on success
and the same error on failure. -/
theorem C2_apply_transformations_composes (strings displacement : NPArr) (a : ℝ) :
    geometry.apply_transformations strings displacement a =
      Except.bind (geometry.apply_rotation strings a)
        (fun moved_strings => geometry.apply_displacement moved_strings displacement) := by
  unfold geometry.apply_transformations
  by_cases h : shapeLast strings.shape ≠ 2
  · rw [if_pos h]
    unfold geometry.apply_rotation
    rw [if_pos h]
    rfl
  · rw [if_neg h]

/-- Claim C3: for an integer `N` with 1 <= N, a starting angle `s`, and
0 <= p < N, `create_symmetry` returns the array with count rows (count
is N if p = 0 and p otherwise) whose k-th row is
(cos (s + k * (2 pi / N)), sin (s + k * (2 pi / N))); and for nonzero p
the result is exactly the first p rows of the full shape. -/
theorem C3_create_symmetry_rows_and_take (N p : ℤ) (s : ℝ)
    (hN : 1 ≤ N) (hp0 : 0 ≤ p) (hpN : p < N) :
    geometry.create_symmetry N s p =
      .ok (.two 2 ((List.range (if p = 0 then N.toNat else p.toNat)).map (fun k : ℕ =>
        [Real.cos (s + (k:ℝ) * (2 * Real.pi / N)),
         Real.sin (s + (k:ℝ) * (2 * Real.pi / N))]))) ∧
    (0 < p → resultRows (geometry.create_symmetry N s p) =
      (resultRows (geometry.create_symmetry N s 0)).take p.toNat) := by
  constructor
  · by_cases hp : p = 0
    · subst hp
      exact create_symmetry_full N s (by omega)
    · rw [if_neg hp]
      exact create_symmetry_part N p s (by omega) hp
  · intro hppos
    rw [create_symmetry_part N p s (by omega) (by omega), create_symmetry_full N s (by omega)]
    simp only [resultRows]
    rw [← List.map_take, List.take_range]
    congr 2
    omega

/-- Witness for C3 at N = 4, p = 2: the partial shape is the first two
rows of the full square. -/
theorem C3_create_symmetry_rows_and_take_witness :
    resultRows (geometry.create_symmetry 4 0 2) =
      (resultRows (geometry.create_symmetry 4 0 0)).take 2 := by
  have h2 := (C3_create_symmetry_rows_and_take 4 2 0
    (by decide) (by decide) (by decide)).2 (by decide)
  simpa using h2

/-- Counterexample to C4 as stated: with points of shape (1, 3) and a
displacement of shape (2,), the code raises a broadcast ValueError even
though the displacement argument has shape exactly (2,), so the claimed
equivalence of raising and a bad displacement shape fails. -/
theorem C4_displacement_iff_counterexample :
    (NPArr.one [(0:ℝ), 0]).shape = [2] ∧
    (geometry.apply_displacement (.two 3 [[(1:ℝ), 2, 3]]) (.one [0, 0])).isOk = false :=
  ⟨rfl, rfl⟩

/-- Claim C4 amended: restricted to points of shape (N, 2), the
displacement-shape ValueError is raised exactly when the displacement
does not have shape (2,), the actual shape is reported in the message,
and with a shape (2,) displacement the result adds it to every row. -/
theorem C4_displacement_amended (rows : List (List ℝ))
    (_hrows : ∀ r ∈ rows, r.length = 2) (d : NPArr) :
    ((geometry.apply_displacement (.two 2 rows) d).isOk = false ↔ d.shape ≠ [2]) ∧
    (d.shape ≠ [2] → geometry.apply_displacement (.two 2 rows) d =
      .error ("displacement needs to have shape (2,) but has shape " ++ shapeStr d.shape ++ ".")) ∧
    (∀ dx dy : ℝ, geometry.apply_displacement (.two 2 rows) (.one [dx, dy]) =
      .ok (.two 2 (rows.map (fun r => [dx + r.getD 0 0, dy + r.getD 1 0])))) := by
  refine ⟨?_, ?_, ?_⟩
  · rcases d with v | ⟨c, rws⟩
    · rcases v with _ | ⟨x, _ | ⟨y, _ | ⟨z, t⟩⟩⟩
      · simp [geometry.apply_displacement, NPArr.shape, Except.isOk, Except.toBool]
      · simp [geometry.apply_displacement, NPArr.shape, Except.isOk, Except.toBool]
      · simp [geometry.apply_displacement, addVec2, NPArr.shape, Except.isOk, Except.toBool]
      · simp [geometry.apply_displacement, NPArr.shape, Except.isOk, Except.toBool]
    · simp [geometry.apply_displacement, NPArr.shape, Except.isOk, Except.toBool]
  · intro hd
    rcases d with v | ⟨c, rws⟩
    · rcases v with _ | ⟨x, _ | ⟨y, _ | ⟨z, t⟩⟩⟩
      · rfl
      · rfl
      · exact absurd rfl hd
      · rfl
    · rfl
  · intro dx dy
    rfl

/-- Witness for the amended C4: displacing [[1, 2]] by (10, 20) adds the
vector to the row. -/
theorem C4_displacement_amended_witness :
    geometry.apply_displacement (.two 2 [[(1:ℝ), 2]]) (.one [10, 20]) =
      .ok (.two 2 [[10 + 1, 20 + 2]]) := by
  have h : ∀ r ∈ [[(1:ℝ), 2]], r.length = 2 := by
    intro r hr
    simp only [List.mem_singleton] at hr
    subst hr
    rfl
  have h2 := (C4_displacement_amended [[(1:ℝ), 2]] h (.one [10, 20])).2.2 10 20
  simpa [List.getD] using h2

/-- Counterexample to C5 as stated: with N_partial = 0 the call does not
always succeed regardless of N_symmetry, since N_symmetry = 0 trips the
guard 0 >= 0 and raises. -/
theorem C5_partial_zero_counterexample :
    geometry.create_symmetry 0 0 0 =
      .error "N_partial (0) is larger than N_symmetry (0). " := rfl

/-- Claim C5 amended: `create_symmetry` raises whenever
N_partial >= N_symmetry (in particular for nonzero N_partial), and with
N_partial = 0 it succeeds for every N_symmetry >= 1. -/
theorem C5_guard_amended (N p : ℤ) (s : ℝ) :
    (N ≤ p → (geometry.create_symmetry N s p).isOk = false) ∧
    (1 ≤ N → (geometry.create_symmetry N s 0).isOk = true) := by
  constructor
  · intro h
    unfold geometry.create_symmetry
    rw [if_pos h]
    rfl
  · intro hN
    rw [create_symmetry_full N s (by omega)]
    rfl

/-- Witness for the amended C5 at the boundary of the claim:
create_symmetry 5 with N_partial = 5 fails and with N_partial = 0
succeeds. -/
theorem C5_guard_amended_witness :
    (geometry.create_symmetry 5 0 5).isOk = false ∧
    (geometry.create_symmetry 5 0 0).isOk = true :=
  ⟨(C5_guard_amended 5 5 0).1 (by decide), (C5_guard_amended 5 0 0).2 (by decide)⟩

/-- Claim C6: rotating a shape (N, 2) array by `a` and then by `-a`
returns the original array, exactly over real arithmetic. -/
theorem C6_rotation_roundtrip (rows : List (List ℝ))
    (h : ∀ r ∈ rows, r.length = 2) (a : ℝ) :
    Except.bind (geometry.apply_rotation (.two 2 rows) a)
      (fun q => geometry.apply_rotation q (-a)) = .ok (.two 2 rows) := by
  rw [apply_rotation_two rows a]
  show geometry.apply_rotation _ (-a) = _
  rw [apply_rotation_two]
  rw [List.map_map]
  have hmap : rows.map ((fun r : List ℝ =>
      [r.getD 0 0 * Real.cos (-a) - r.getD 1 0 * Real.sin (-a),
       r.getD 0 0 * Real.sin (-a) + r.getD 1 0 * Real.cos (-a)]) ∘ (fun r : List ℝ =>
      [r.getD 0 0 * Real.cos a - r.getD 1 0 * Real.sin a,
       r.getD 0 0 * Real.sin a + r.getD 1 0 * Real.cos a])) = rows := by
    conv_rhs => rw [← List.map_id rows]
    apply List.map_congr_left
    intro r hr
    obtain ⟨x, y, rfl⟩ := List.length_eq_two.mp (h r hr)
    simp [List.getD, Function.comp]
    constructor
    · linear_combination x * Real.sin_sq_add_cos_sq a
    · linear_combination y * Real.sin_sq_add_cos_sq a
  rw [hmap]

/-- Witness for C6 at [[1, 0]] rotated by pi and back. -/
theorem C6_rotation_roundtrip_witness :
    Except.bind (geometry.apply_rotation (.two 2 [[(1:ℝ), 0]]) Real.pi)
      (fun q => geometry.apply_rotation q (-Real.pi)) = .ok (.two 2 [[(1:ℝ), 0]]) :=
  C6_rotation_roundtrip [[(1:ℝ), 0]] (by
    intro r hr
    simp only [List.mem_singleton] at hr
    subst hr
    rfl) Real.pi

/-- Claim C7: on the empty point set of shape (0, 2) and any angle,
`apply_rotation` succeeds and returns the empty array of shape (0, 2). -/
theorem C7_empty_rotation (a : ℝ) :
    geometry.apply_rotation (.two 2 []) a = .ok (.two 2 []) ∧
    (NPArr.two 2 ([] : List (List ℝ))).shape = [0, 2] := by
  constructor
  · simpa using apply_rotation_two [] a
  · rfl

/-- Counterexample to C8 as stated: the two source files do not define
the same four functions, since create_symmetry appears in
src/geometry.py but not in src/transformations.py. -/
theorem C8_duplicate_counterexample :
    "create_symmetry" ∈ geometry.definedFunctions ∧
    "create_symmetry" ∉ transformations.definedFunctions := by
  constructor
  · simp [geometry.definedFunctions]
  · simp [transformations.definedFunctions]

/-- Claim C8 amended: src/transformations.py defines three of the four
functions, each pair of same-named functions is equal on every input,
and its function list is exactly the first three names of
src/geometry.py. -/
theorem C8_duplicate_amended :
    (∀ (u : NPArr) (a : ℝ), transformations.apply_rotation u a = geometry.apply_rotation u a) ∧
    (∀ u d : NPArr, transformations.apply_displacement u d = geometry.apply_displacement u d) ∧
    (∀ (u d : NPArr) (a : ℝ),
      transformations.apply_transformations u d a = geometry.apply_transformations u d a) ∧
    transformations.definedFunctions = geometry.definedFunctions.take 3 :=
  ⟨fun _ _ => rfl, fun _ _ => rfl, fun _ _ _ => rfl, rfl⟩

/-- Claim C9: for N_symmetry >= 1 and a negative N_partial, the guard
passes and `create_symmetry` returns the empty array of shape (0, 2). -/
theorem C9_negative_partial_empty (N p : ℤ) (s : ℝ) (hN : 1 ≤ N) (hp : p < 0) :
    geometry.create_symmetry N s p = .ok (.two 2 []) := by
  rw [create_symmetry_part N p s (by omega) (by omega)]
  have h0 : p.toNat = 0 := by omega
  rw [h0]
  rfl

/-- Witness for C9 at N = 3, N_partial = -1. -/
theorem C9_negative_partial_empty_witness :
    geometry.create_symmetry 3 0 (-1) = .ok (.two 2 []) :=
  C9_negative_partial_empty 3 (-1) 0 (by decide) (by decide)

/-- Claim C10: the shape validation of `apply_rotation` inspects only
the last dimension, so a one-dimensional input of shape (2,) is
accepted and the single rotated point is returned. -/
theorem C10_one_dimensional_rotation (x y a : ℝ) :
    geometry.apply_rotation (.one [x, y]) a =
      .ok (.one [x * Real.cos a - y * Real.sin a, x * Real.sin a + y * Real.cos a]) := by
  unfold geometry.apply_rotation
  rw [if_neg (fun h => h rfl)]
  simp [npT, dot2, List.getD]
  constructor <;> ring
